import Mathlib

/-!
Verification of the pipette-desktop keycode codec and key-popover logic.

The keycode codec (range predicates, field build/extract pairs, symbolic
serialize/resolve) is embedded from the concrete implementations in
`src/renderer/components/keycodes/__tests__/KeyPopover.test.tsx`; the
popover wrapper-mode classifier and mode-switch handler are embedded from
`KeyPopover.tsx`; the modifier checkbox strip from
`ModifierCheckboxStrip.tsx`; the PDF export from the keymap-pdf module.

JavaScript numbers used by this code are nonnegative integers well below
2^31, so `Nat` with the built-in bitwise operators models the JS bitwise
expressions exactly (JS `ToInt32` is the identity on that range).
-/

namespace Pipette

/-! ## Range predicates (wrapper-kind classification ranges) -/

def isLMKeycode (code : Nat) : Bool :=
  decide (0x7000 ≤ code) && decide (code ≤ 0x70ff)

def isLTKeycode (code : Nat) : Bool :=
  decide (0x4000 ≤ code) && decide (code < 0x5000)

def isSHTKeycode (code : Nat) : Bool :=
  decide (0x5600 ≤ code) && decide (code ≤ 0x56ef)

def isModMaskKeycode (code : Nat) : Bool :=
  decide (0x0100 ≤ code) && decide (code ≤ 0x1fff)

def isModTapKeycode (code : Nat) : Bool :=
  decide (0x6000 ≤ code) && decide (code < 0x8000)

/-! ## Field codec (extract/build pairs) -/

def extractLTLayer (code : Nat) : Nat := (code >>> 8) &&& 0x0f

def extractLMLayer (code : Nat) : Nat := (code >>> 4) &&& 0x0f

def extractLMMod (code : Nat) : Nat := code &&& 0x1f

def extractModMask (code : Nat) : Nat := (code >>> 8) &&& 0x1f

def extractBasicKey (code : Nat) : Nat := code &&& 0xff

def buildLTKeycode (layer basicKey : Nat) : Nat :=
  0x4000 ||| ((layer &&& 0x0f) <<< 8) ||| (basicKey &&& 0xff)

def buildSHTKeycode (basicKey : Nat) : Nat :=
  0x5600 ||| (basicKey &&& 0xff)

def buildLMKeycode (layer mod : Nat) : Nat :=
  0x7000 ||| ((layer &&& 0x0f) <<< 4) ||| (mod &&& 0x1f)

def buildModMaskKeycode (mask key : Nat) : Nat :=
  if mask = 0 then key &&& 0xff else ((mask &&& 0x1f) <<< 8) ||| (key &&& 0xff)

def buildModTapKeycode (mask key : Nat) : Nat :=
  if mask = 0 then key &&& 0xff else 0x6000 ||| ((mask &&& 0x1f) <<< 8) ||| (key &&& 0xff)

/-! ## Symbolic resolver -/

def resolve (name : String) : Nat :=
  if name = "QMK_LM_MASK" then 0x1f
  else if name = "QK_LAYER_TAP" then 0x4000
  else if name = "SH_T(kc)" then 0x5600
  else if name = "KC_A" then 4
  else if name = "KC_B" then 5
  else if name = "KC_SPACE" then 0x2c
  else if name = "KC_ENTER" then 0x28
  else if name = "MOD_LSFT" then 0x02
  else if name = "MOD_LCTL" then 0x01
  else 0

def deserialize (val : String) : Nat :=
  if val = "KC_A" then 4
  else if val = "KC_B" then 5
  else if val = "KC_SPACE" then 0x2c
  else 0

/-- One hex digit, lowercase, as produced by JS `Number.prototype.toString(16)`. -/
def hexChar (n : Nat) : Char :=
  if n < 10 then Char.ofNat (48 + n) else Char.ofNat (87 + n)

/-- Accumulates the base-16 digits of `n` most-significant first. -/
def toHexAux (n : Nat) (acc : List Char) : List Char :=
  if h : n < 16 then hexChar n :: acc
  else toHexAux (n / 16) (hexChar (n % 16) :: acc)
  termination_by n
  decreasing_by exact Nat.div_lt_self (by omega) (by omega)

/-- JS `n.toString(16)` for natural `n`. -/
def toHexString (n : Nat) : String := String.mk (toHexAux n [])

/-- JS `s.padStart(4, '0')`. -/
def padStart4 (s : String) : String :=
  String.mk (List.replicate (4 - s.length) '0') ++ s

def serialize (code : Nat) : String :=
  if code = 4 then "KC_A"
  else if code = 5 then "KC_B"
  else if code = 0x2c then "KC_SPACE"
  else if code = 0x4004 then "LT0(KC_A)"
  else if code = 0x4104 then "LT1(KC_A)"
  else if code = 0x4204 then "LT2(KC_A)"
  else if code = 0x5104 then "LT0(KC_A)"
  else if code = 0x512c then "LT0(KC_SPACE)"
  else if code = 0x5105 then "LT0(KC_B)"
  else if code = 0x5604 then "SH_T(KC_A)"
  else if code = 0x0204 then "LSFT(KC_A)"
  else if code = 0x2304 then "C_S_T(KC_A)"
  else if code = 0x7000 then "LM0(0x0)"
  else if code = 0x7002 then "LM0(MOD_LSFT)"
  else "0x" ++ padStart4 (toHexString code)

/-! ## Wrapper-mode classification (KeyPopover's wrapperMode initializer) -/

inductive WrapperMode where
  | nothing
  | modMask
  | modTap
  | lt
  | shT
  | lm
deriving DecidableEq, Repr

/-- The `wrapperMode` initial-state computation of `KeyPopover`: range
predicates evaluated in a fixed order, first match wins.  `WrapperMode.nothing`
stands for the source's `'none'`. -/
def initialWrapperMode (maskOnly : Bool) (code : Nat) : WrapperMode :=
  if maskOnly then .nothing
  else if isLTKeycode code then .lt
  else if isSHTKeycode code then .shT
  else if isLMKeycode code then .lm
  else if isModTapKeycode code then .modTap
  else if isModMaskKeycode code then .modMask
  else .nothing

/-! ## KeyPopover mode switching (`handleModeSwitch`)

The handler's observable effect is the keycode it passes to
`onRawKeycodeSelect` (or no call at all); the remaining statements only set
local component state.  `some c` models a call with code `c`, `none` no call. -/

def handleModeSwitch (wrapperMode : WrapperMode) (currentKeycode selectedLayer : Nat)
    (newMode : WrapperMode) : Option Nat :=
  -- Toggle off if clicking the active mode
  let target := if newMode = wrapperMode then WrapperMode.nothing else newMode
  -- LM keycodes store modifiers (not a basic key) in the lower bits,
  -- so extractBasicKey would return the modifier value.
  let basicKey := if wrapperMode = WrapperMode.lm then 0 else extractBasicKey currentKeycode
  match target with
  | .nothing =>
    -- Turning off: revert to basic key
    if basicKey ≠ currentKeycode then some basicKey else none
  | .lt => some (buildLTKeycode selectedLayer basicKey)
  | .shT => some (buildSHTKeycode basicKey)
  | .lm => some (buildLMKeycode selectedLayer 0)
  | .modTap =>
    -- Only preserve mod mask when switching from another mod-based mode
    let mask := if wrapperMode = WrapperMode.modMask ∨ wrapperMode = WrapperMode.modTap
      then extractModMask currentKeycode else 0
    some (buildModTapKeycode mask basicKey)
  | .modMask =>
    let mask := if wrapperMode = WrapperMode.modMask ∨ wrapperMode = WrapperMode.modTap
      then extractModMask currentKeycode else 0
    some (buildModMaskKeycode mask basicKey)

/-! ## ModifierCheckboxStrip -/

def RIGHT_BIT : Nat := 1 <<< 4

def MOD_BITS_MASK : Nat := 0x0f

def FULL_MASK : Nat := 0x1f

/-- Two's-complement 32-bit pattern of JS `~RIGHT_BIT`; `x & ~RIGHT_BIT`
clears bit 4 for any 32-bit value. -/
def NOT_RIGHT_BIT : Nat := 0xffffffef

/-- The strip's `toggle(bit, right)` click handler: the mask it passes to
`onChange` as a function of the incoming `modMask` prop. -/
def toggle (modMask : Nat) (bit : Nat) (right : Bool) : Nat :=
  let toggled := modMask ^^^ (1 <<< bit)
  let hasMods := (toggled &&& MOD_BITS_MASK) ≠ 0
  let withSide := if right && decide hasMods then toggled ||| RIGHT_BIT else toggled &&& NOT_RIGHT_BIT
  withSide &&& FULL_MASK

/-! ## maskOnly inner-byte editing (PopoverTabCode) -/

/-- Modelled from the spec: `PopoverTabCode`'s maskOnly apply path is not part
of the sources at hand; the spec requires that applying a new inner byte
replaces the low byte while preserving the outer tag bits (the high byte),
e.g. `0x5100 | 0x2C = 0x512C`. -/
def replaceInnerByte (code newByte : Nat) : Nat :=
  (code &&& 0xff00) ||| (newByte &&& 0xff)

/-! ## Keymap PDF export (generate-pdf module)

The exporter is modelled down to the document's page structure.  Geometry
is over `ℚ` (the decimal literals of the source are modelled exactly); the
per-key rectangles and text calls happen inside the external jsPDF library
and are recorded as per-page draw counts. -/

/-- A key of a KLE layout, with the fields the PDF exporter reads. -/
structure KleKey where
  x : ℚ
  y : ℚ
  width : ℚ
  height : ℚ
  row : Nat
  col : Nat
  encoderIdx : Int
  encoderDir : Nat
deriving DecidableEq

structure Bounds where
  minX : ℚ
  minY : ℚ
  width : ℚ
  height : ℚ
deriving DecidableEq

/-- `computeBounds`.  The source seeds its min/max loop with
`Infinity`/`-Infinity` sentinels that the first iteration always replaces;
this is modelled by seeding the fold with the first key's values and folding
over the whole list. -/
def computeBounds (keys : List KleKey) : Bounds :=
  match keys with
  | [] => { minX := 0, minY := 0, width := 0, height := 0 }
  | k :: _ =>
    let step := fun (acc : ℚ × ℚ × ℚ × ℚ) (key : KleKey) =>
      let minX := if key.x < acc.1 then key.x else acc.1
      let minY := if key.y < acc.2.1 then key.y else acc.2.1
      let maxX := if key.x + key.width > acc.2.2.1 then key.x + key.width else acc.2.2.1
      let maxY := if key.y + key.height > acc.2.2.2 then key.y + key.height else acc.2.2.2
      (minX, minY, maxX, maxY)
    let r := keys.foldl step (k.x, k.y, k.x + k.width, k.y + k.height)
    { minX := r.1, minY := r.2.1, width := r.2.2.1 - r.1, height := r.2.2.2 - r.2.1 }

def PAGE_WIDTH : ℚ := 297

def MARGIN : ℚ := 5

def USABLE_WIDTH : ℚ := PAGE_WIDTH - MARGIN * 2

def FOOTER_HEIGHT : ℚ := 6

def LAYER_HEADER_HEIGHT : ℚ := 7

def BORDER_PAD : ℚ := 4

def SPACING_RATIO : ℚ := 0.2

def ROUNDNESS : ℚ := 0.08

/-- The page format passed to the jsPDF constructor. -/
inductive PdfFormat where
  | a4Landscape
  | customLandscape (w h : ℚ)
deriving DecidableEq

/-- What the exporter draws onto one page, at the granularity controlled by
this module (exact geometry and text metrics live inside jsPDF). -/
structure PdfPage where
  headerLayer : Option Nat
  borderDrawn : Bool
  keysDrawn : Nat
  encodersDrawn : Nat
  footer : Option String
deriving DecidableEq

def emptyPage : PdfPage :=
  { headerLayer := none, borderDrawn := false, keysDrawn := 0, encodersDrawn := 0,
    footer := none }

structure PdfDoc where
  format : PdfFormat
  pages : List PdfPage
deriving DecidableEq

/-- `new jsPDF(...)` starts a document with one empty page. -/
def newPdfDoc (format : PdfFormat) : PdfDoc := { format := format, pages := [emptyPage] }

/-- `doc.addPage()` appends an empty page, which becomes the current page. -/
def addPage (d : PdfDoc) : PdfDoc := { d with pages := d.pages ++ [emptyPage] }

/-- Applies `f` to the last (current) page. -/
def modifyCurrent (f : PdfPage → PdfPage) : List PdfPage → List PdfPage
  | [] => []
  | [p] => [f p]
  | p :: rest => p :: modifyCurrent f rest

def onCurrent (f : PdfPage → PdfPage) (d : PdfDoc) : PdfDoc :=
  { d with pages := modifyCurrent f d.pages }

structure PdfExportInput where
  deviceName : String
  layers : Nat
  keys : List KleKey
  keymap : List (String × Nat)
  encoderLayout : List (String × Nat)
  encoderCount : Nat
  layoutOptions : List (Nat × Nat)
  serializeKeycode : Nat → String
  keycodeLabel : String → String
  isMask : String → Bool
  findOuterKeycode : String → Option String
  findInnerKeycode : String → Option String

/-- Strips characters outside U+0020..U+00FF (jsPDF's built-in Helvetica is
Latin-1 only). -/
def sanitizeLabel (text : String) : String :=
  String.mk (text.data.filter fun c => decide (0x20 ≤ c.toNat) && decide (c.toNat ≤ 0xff))

/-- One iteration of the per-layer page loop: header, border, then the key
and encoder drawing loops, all on the current page (after `addPage` for
every layer but the first). -/
def layerStep (normalKeys encoderKeys : List KleKey) (d : PdfDoc) (layer : Nat) : PdfDoc :=
  let d := if layer > 0 then addPage d else d
  let d := onCurrent (fun p => { p with headerLayer := some layer }) d
  let d := onCurrent (fun p => { p with borderDrawn := true }) d
  let d := normalKeys.foldl
    (fun d _key => onCurrent (fun p => { p with keysDrawn := p.keysDrawn + 1 }) d) d
  encoderKeys.foldl
    (fun d _key => onCurrent (fun p => { p with encodersDrawn := p.encodersDrawn + 1 }) d) d

/-- `generateKeymapPdf`, modelled down to the document's page structure.
`filterVisibleKeys` (imported from the KLE module, outside these sources)
and the formatted current time are passed as parameters; the final base64
serialization of the binary output is external and omitted. -/
def generateKeymapPdf (filterVisibleKeys : List KleKey → List (Nat × Nat) → List KleKey)
    (timestamp : String) (input : PdfExportInput) : PdfDoc :=
  let visibleKeys := filterVisibleKeys input.keys input.layoutOptions
  let normalKeys := visibleKeys.filter fun k => k.encoderIdx == -1
  let encoderKeys := visibleKeys.filter fun k => k.encoderIdx != -1
  let bounds := computeBounds visibleKeys
  if bounds.width = 0 ∨ bounds.height = 0 then
    newPdfDoc PdfFormat.a4Landscape
  else
    -- Scale keyboard to fit usable page width, capped so page height stays reasonable
    let MAX_PAGE_HEIGHT := PAGE_WIDTH
    let maxContentHeight :=
      MAX_PAGE_HEIGHT - MARGIN * 2 - LAYER_HEADER_HEIGHT - FOOTER_HEIGHT - BORDER_PAD * 2
    let scale := min (USABLE_WIDTH / bounds.width) (maxContentHeight / bounds.height)
    let spacing := scale * SPACING_RATIO
    let visualH := bounds.height * scale - spacing
    let borderH := visualH + BORDER_PAD * 2
    -- Dynamic page height: fits exactly one layer with minimal whitespace
    let pageHeight := MARGIN + LAYER_HEADER_HEIGHT + borderH + FOOTER_HEIGHT + MARGIN
    let doc := newPdfDoc (PdfFormat.customLandscape PAGE_WIDTH pageHeight)
    let deviceLabel := (sanitizeLabel input.deviceName).trim
    let footerText :=
      if deviceLabel ≠ "" then deviceLabel ++ " - Exported " ++ timestamp ++ " by Pipette"
      else "Exported " ++ timestamp ++ " by Pipette"
    let doc := (List.range input.layers).foldl (layerStep normalKeys encoderKeys) doc
    -- Footer on each page
    { doc with pages := doc.pages.map fun p => { p with footer := some footerText } }

/-- A concrete 1u key at the origin, used to exercise the exporter. -/
def witnessKey : KleKey :=
  { x := 0, y := 0, width := 1, height := 1, row := 0, col := 0,
    encoderIdx := -1, encoderDir := 0 }

/-- A concrete two-layer export input with one visible key. -/
def witnessInputTwoLayers : PdfExportInput :=
  { deviceName := "Voyager", layers := 2, keys := [witnessKey], keymap := [],
    encoderLayout := [], encoderCount := 0, layoutOptions := [],
    serializeKeycode := fun _ => "", keycodeLabel := fun s => s,
    isMask := fun _ => false, findOuterKeycode := fun _ => none,
    findInnerKeycode := fun _ => none }

/-- A concrete export input with three layers but no keys at all. -/
def witnessInputNoKeys : PdfExportInput :=
  { deviceName := "Voyager", layers := 3, keys := [], keymap := [],
    encoderLayout := [], encoderCount := 0, layoutOptions := [],
    serializeKeycode := fun _ => "", keycodeLabel := fun s => s,
    isMask := fun _ => false, findOuterKeycode := fun _ => none,
    findInnerKeycode := fun _ => none }

/-! ## Arithmetic characterizations of the bitwise primitives -/

theorem land_255 (c : Nat) : c &&& 255 = c % 256 := by
  have h := Nat.and_pow_two_sub_one_eq_mod c 8
  norm_num at h
  exact h

theorem land_31 (c : Nat) : c &&& 31 = c % 32 := by
  have h := Nat.and_pow_two_sub_one_eq_mod c 5
  norm_num at h
  exact h

theorem land_15 (c : Nat) : c &&& 15 = c % 16 := by
  have h := Nat.and_pow_two_sub_one_eq_mod c 4
  norm_num at h
  exact h

theorem extractBasicKey_eq (c : Nat) : extractBasicKey c = c % 256 := by
  unfold extractBasicKey
  exact land_255 c

theorem extractModMask_eq (c : Nat) : extractModMask c = c / 256 % 32 := by
  unfold extractModMask
  rw [Nat.shiftRight_eq_div_pow, land_31]

theorem extractLTLayer_eq (c : Nat) : extractLTLayer c = c / 256 % 16 := by
  unfold extractLTLayer
  rw [Nat.shiftRight_eq_div_pow, land_15]

theorem extractLMLayer_eq (c : Nat) : extractLMLayer c = c / 16 % 16 := by
  unfold extractLMLayer
  rw [Nat.shiftRight_eq_div_pow, land_15]

theorem extractLMMod_eq (c : Nat) : extractLMMod c = c % 32 := by
  unfold extractLMMod
  exact land_31 c

theorem buildModMaskKeycode_eq (mask key : Nat) (hm : mask ≤ 31) (hk : key ≤ 255)
    (h0 : mask ≠ 0) : buildModMaskKeycode mask key = 256 * mask + key := by
  unfold buildModMaskKeycode
  rw [if_neg h0, land_31, land_255, Nat.mod_eq_of_lt (by omega), Nat.mod_eq_of_lt (by omega),
    Nat.shiftLeft_eq, Nat.mul_comm]
  have hk8 : key < 2 ^ 8 := by norm_num; omega
  rw [← Nat.mul_add_lt_is_or hk8 mask]

theorem buildModTapKeycode_eq (mask key : Nat) (hm : mask ≤ 31) (hk : key ≤ 255)
    (h0 : mask ≠ 0) : buildModTapKeycode mask key = 0x6000 + 256 * mask + key := by
  unfold buildModTapKeycode
  rw [if_neg h0, land_31, land_255, Nat.mod_eq_of_lt (by omega), Nat.mod_eq_of_lt (by omega),
    Nat.shiftLeft_eq, Nat.mul_comm, Nat.lor_assoc]
  have hk8 : key < 2 ^ 8 := by norm_num; omega
  rw [← Nat.mul_add_lt_is_or hk8 mask]
  have hin : 2 ^ 8 * mask + key < 2 ^ 13 := by norm_num; omega
  have h60 : (0x6000 : Nat) = 2 ^ 13 * 3 := by norm_num
  rw [h60, ← Nat.mul_add_lt_is_or hin 3]
  norm_num
  omega

theorem buildLTKeycode_eq (layer key : Nat) (hl : layer ≤ 15) (hk : key ≤ 255) :
    buildLTKeycode layer key = 0x4000 + 256 * layer + key := by
  unfold buildLTKeycode
  rw [land_15, land_255, Nat.mod_eq_of_lt (by omega), Nat.mod_eq_of_lt (by omega),
    Nat.shiftLeft_eq, Nat.mul_comm, Nat.lor_assoc]
  have hk8 : key < 2 ^ 8 := by norm_num; omega
  rw [← Nat.mul_add_lt_is_or hk8 layer]
  have hin : 2 ^ 8 * layer + key < 2 ^ 13 := by norm_num; omega
  have h40 : (0x4000 : Nat) = 2 ^ 13 * 2 := by norm_num
  rw [h40, ← Nat.mul_add_lt_is_or hin 2]
  norm_num
  omega

theorem buildSHTKeycode_eq (key : Nat) (hk : key ≤ 255) :
    buildSHTKeycode key = 0x5600 + key := by
  unfold buildSHTKeycode
  rw [land_255, Nat.mod_eq_of_lt (by omega)]
  have hk8 : key < 2 ^ 8 := by norm_num; omega
  have h56 : (0x5600 : Nat) = 2 ^ 8 * 86 := by norm_num
  rw [h56, ← Nat.mul_add_lt_is_or hk8 86]

/-! ## Characterization of the wrapper-mode classifier by ranges -/

theorem initialWrapperMode_lt {c : Nat} (h1 : 0x4000 ≤ c) (h2 : c < 0x5000) :
    initialWrapperMode false c = WrapperMode.lt := by
  unfold initialWrapperMode isLTKeycode isSHTKeycode isLMKeycode isModTapKeycode isModMaskKeycode
  simp only [Bool.false_eq_true, if_false, Bool.and_eq_true, decide_eq_true_eq]
  split_ifs <;> first | rfl | omega

theorem initialWrapperMode_shT {c : Nat} (h1 : 0x5600 ≤ c) (h2 : c ≤ 0x56ef) :
    initialWrapperMode false c = WrapperMode.shT := by
  unfold initialWrapperMode isLTKeycode isSHTKeycode isLMKeycode isModTapKeycode isModMaskKeycode
  simp only [Bool.false_eq_true, if_false, Bool.and_eq_true, decide_eq_true_eq]
  split_ifs <;> first | rfl | omega

theorem initialWrapperMode_lm {c : Nat} (h1 : 0x7000 ≤ c) (h2 : c ≤ 0x70ff) :
    initialWrapperMode false c = WrapperMode.lm := by
  unfold initialWrapperMode isLTKeycode isSHTKeycode isLMKeycode isModTapKeycode isModMaskKeycode
  simp only [Bool.false_eq_true, if_false, Bool.and_eq_true, decide_eq_true_eq]
  split_ifs <;> first | rfl | omega

theorem initialWrapperMode_modTap {c : Nat} (h1 : 0x6000 ≤ c) (h2 : c < 0x8000)
    (h3 : c < 0x7000 ∨ 0x70ff < c) : initialWrapperMode false c = WrapperMode.modTap := by
  unfold initialWrapperMode isLTKeycode isSHTKeycode isLMKeycode isModTapKeycode isModMaskKeycode
  simp only [Bool.false_eq_true, if_false, Bool.and_eq_true, decide_eq_true_eq]
  split_ifs <;> first | rfl | omega

theorem initialWrapperMode_modMask {c : Nat} (h1 : 0x100 ≤ c) (h2 : c ≤ 0x1fff) :
    initialWrapperMode false c = WrapperMode.modMask := by
  unfold initialWrapperMode isLTKeycode isSHTKeycode isLMKeycode isModTapKeycode isModMaskKeycode
  simp only [Bool.false_eq_true, if_false, Bool.and_eq_true, decide_eq_true_eq]
  split_ifs <;> first | rfl | omega

theorem initialWrapperMode_nothing {c : Nat}
    (h1 : c < 0x4000 ∨ 0x5000 ≤ c) (h2 : c < 0x5600 ∨ 0x56ef < c)
    (h3 : c < 0x7000 ∨ 0x70ff < c) (h4 : c < 0x6000 ∨ 0x8000 ≤ c)
    (h5 : c < 0x100 ∨ 0x1fff < c) :
    initialWrapperMode false c = WrapperMode.nothing := by
  unfold initialWrapperMode isLTKeycode isSHTKeycode isLMKeycode isModTapKeycode isModMaskKeycode
  simp only [Bool.false_eq_true, if_false, Bool.and_eq_true, decide_eq_true_eq]
  split_ifs <;> first | rfl | omega

/-! ## Claim theorems -/

/-- C1: classification of a raw 16-bit keycode evaluates the wrapper-kind
range predicates in the fixed priority order LayerTap, HoldTap, LayerMod,
ModTap, ModifierMask, first match wins; in particular every code in the
LayerMod range 0x7000..=0x70FF lies in the ModTap range 0x6000..0x7FFF yet
classifies as LayerMod, not ModTap. -/
theorem classification_priority :
    (∀ code : Nat, isLTKeycode code = true → initialWrapperMode false code = WrapperMode.lt) ∧
    (∀ code : Nat, isLTKeycode code = false → isSHTKeycode code = true →
      initialWrapperMode false code = WrapperMode.shT) ∧
    (∀ code : Nat, isLTKeycode code = false → isSHTKeycode code = false →
      isLMKeycode code = true → initialWrapperMode false code = WrapperMode.lm) ∧
    (∀ code : Nat, isLTKeycode code = false → isSHTKeycode code = false →
      isLMKeycode code = false → isModTapKeycode code = true →
      initialWrapperMode false code = WrapperMode.modTap) ∧
    (∀ code : Nat, isLTKeycode code = false → isSHTKeycode code = false →
      isLMKeycode code = false → isModTapKeycode code = false →
      isModMaskKeycode code = true → initialWrapperMode false code = WrapperMode.modMask) ∧
    (∀ code : Nat, 0x7000 ≤ code → code ≤ 0x70ff →
      isModTapKeycode code = true ∧ initialWrapperMode false code = WrapperMode.lm) := by
  refine ⟨?_, ?_, ?_, ?_, ?_, ?_⟩
  · intro code h1
    simp [initialWrapperMode, h1]
  · intro code h1 h2
    simp [initialWrapperMode, h1, h2]
  · intro code h1 h2 h3
    simp [initialWrapperMode, h1, h2, h3]
  · intro code h1 h2 h3 h4
    simp [initialWrapperMode, h1, h2, h3, h4]
  · intro code h1 h2 h3 h4 h5
    simp [initialWrapperMode, h1, h2, h3, h4, h5]
  · intro code h1 h2
    refine ⟨?_, initialWrapperMode_lm h1 h2⟩
    simp only [isModTapKeycode, Bool.and_eq_true, decide_eq_true_eq]
    omega

/-- Witness for C1 at the concrete LM-range code 0x7002. -/
theorem classification_priority_witness :
    isModTapKeycode 0x7002 = true ∧ initialWrapperMode false 0x7002 = WrapperMode.lm :=
  classification_priority.2.2.2.2.2 0x7002 (by decide) (by decide)

/-- C2 counterexample: the round-trip law quantified over all integer field
inputs is false.  `buildLTKeycode 16 0` classifies as LayerTap but its
extracted layer is 0, not 16; moreover even field-width-bounded inputs fail
for LayerMod, whose packed layout overlaps layer bit 0 and mod bit 4:
`buildLMKeycode 0 16` extracts layer 1, and `buildLMKeycode 1 0` extracts
mod 16. -/
theorem roundTrip_unbounded_counterexample :
    (¬ ∀ layer key : Nat,
      initialWrapperMode false (buildLTKeycode layer key) = WrapperMode.lt →
      extractLTLayer (buildLTKeycode layer key) = layer ∧
      extractBasicKey (buildLTKeycode layer key) = key) ∧
    initialWrapperMode false (buildLMKeycode 0 16) = WrapperMode.lm ∧
    extractLMLayer (buildLMKeycode 0 16) = 1 ∧
    initialWrapperMode false (buildLMKeycode 1 0) = WrapperMode.lm ∧
    extractLMMod (buildLMKeycode 1 0) = 16 := by
  refine ⟨fun h => ?_, by decide, by decide, by decide, by decide⟩
  have h16 := (h 16 0 (by decide)).1
  exact absurd h16 (by decide)

/-- C2 (amended): the round-trip law `extract(build(F)) = F` holds, for
inputs masked-identically (i.e. already field-width-bounded: layer ≤ 15,
mask/mod ≤ 31, key ≤ 255), whenever the built code classifies as the kind
that built it — for ModifierMask, ModTap, LayerTap and HoldTap; for
LayerMod, whose layout overlaps layer bit 0 with mod bit 4, it additionally
requires the layer to be odd exactly when mod ≥ 16. -/
theorem roundTrip_amended :
    (∀ mask, mask ≤ 31 → ∀ key, key ≤ 255 →
      initialWrapperMode false (buildModMaskKeycode mask key) = WrapperMode.modMask →
      extractModMask (buildModMaskKeycode mask key) = mask ∧
      extractBasicKey (buildModMaskKeycode mask key) = key) ∧
    (∀ mask, mask ≤ 31 → ∀ key, key ≤ 255 →
      initialWrapperMode false (buildModTapKeycode mask key) = WrapperMode.modTap →
      extractModMask (buildModTapKeycode mask key) = mask ∧
      extractBasicKey (buildModTapKeycode mask key) = key) ∧
    (∀ layer, layer ≤ 15 → ∀ key, key ≤ 255 →
      initialWrapperMode false (buildLTKeycode layer key) = WrapperMode.lt →
      extractLTLayer (buildLTKeycode layer key) = layer ∧
      extractBasicKey (buildLTKeycode layer key) = key) ∧
    (∀ key, key ≤ 255 →
      initialWrapperMode false (buildSHTKeycode key) = WrapperMode.shT →
      extractBasicKey (buildSHTKeycode key) = key) ∧
    (∀ layer, layer ≤ 15 → ∀ mod, mod ≤ 31 → (layer % 2 = 1 ↔ 16 ≤ mod) →
      initialWrapperMode false (buildLMKeycode layer mod) = WrapperMode.lm →
      extractLMLayer (buildLMKeycode layer mod) = layer ∧
      extractLMMod (buildLMKeycode layer mod) = mod) := by
  refine ⟨?_, ?_, ?_, ?_, ?_⟩
  · intro mask hm key hk _hcl
    rw [buildModMaskKeycode_eq, extractModMask_eq, extractBasicKey_eq]
    · constructor <;> omega
    all_goals try assumption
    · intro h0
      rw [h0] at _hcl
      rw [show buildModMaskKeycode 0 key = key % 256 from by
        simp [buildModMaskKeycode, land_255]] at _hcl
      rw [initialWrapperMode_nothing (by omega) (by omega) (by omega) (by omega)
        (by omega)] at _hcl
      exact absurd _hcl (by decide)
  · intro mask hm key hk hcl
    by_cases h0 : mask = 0
    · rw [h0] at hcl
      rw [show buildModTapKeycode 0 key = key % 256 from by
        simp [buildModTapKeycode, land_255]] at hcl
      rw [initialWrapperMode_nothing (by omega) (by omega) (by omega) (by omega)
        (by omega)] at hcl
      exact absurd hcl (by decide)
    by_cases h16 : mask = 16
    · rw [h16] at hcl
      rw [buildModTapKeycode_eq 16 key (by omega) hk (by omega)] at hcl
      rw [initialWrapperMode_lm (by omega) (by omega)] at hcl
      exact absurd hcl (by decide)
    · rw [buildModTapKeycode_eq mask key hm hk h0, extractModMask_eq, extractBasicKey_eq]
      constructor <;> omega
  · intro layer hl key hk _hcl
    rw [buildLTKeycode_eq layer key hl hk, extractLTLayer_eq, extractBasicKey_eq]
    constructor <;> omega
  · intro key hk _hcl
    rw [buildSHTKeycode_eq key hk, extractBasicKey_eq]
    omega
  · set_option maxRecDepth 4000 in decide

/-- Witness for C2 (amended): each conjunct applied at a concrete input. -/
theorem roundTrip_amended_witness :
    (extractModMask (buildModMaskKeycode 2 4) = 2 ∧
      extractBasicKey (buildModMaskKeycode 2 4) = 4) ∧
    (extractModMask (buildModTapKeycode 2 4) = 2 ∧
      extractBasicKey (buildModTapKeycode 2 4) = 4) ∧
    (extractLTLayer (buildLTKeycode 2 4) = 2 ∧
      extractBasicKey (buildLTKeycode 2 4) = 4) ∧
    extractBasicKey (buildSHTKeycode 4) = 4 ∧
    (extractLMLayer (buildLMKeycode 0 2) = 0 ∧ extractLMMod (buildLMKeycode 0 2) = 2) :=
  ⟨roundTrip_amended.1 2 (by decide) 4 (by decide) (by decide),
    roundTrip_amended.2.1 2 (by decide) 4 (by decide) (by decide),
    roundTrip_amended.2.2.1 2 (by decide) 4 (by decide) (by decide),
    roundTrip_amended.2.2.2.1 4 (by decide) (by decide),
    roundTrip_amended.2.2.2.2 0 (by decide) 2 (by decide) (by decide) (by decide)⟩

/-- C3: for every mask in 1..=31 and key in 0..=255, the built
modifier-mask keycode classifies as ModifierMask, and the two extractors
recover the mask and the basic key. -/
theorem modMask_roundTrip (mask : Nat) (hm : mask ≤ 31) (h1 : 1 ≤ mask)
    (key : Nat) (hk : key ≤ 255) :
    initialWrapperMode false (buildModMaskKeycode mask key) = WrapperMode.modMask ∧
    extractModMask (buildModMaskKeycode mask key) = mask ∧
    extractBasicKey (buildModMaskKeycode mask key) = key := by
  rw [buildModMaskKeycode_eq mask key hm hk (by omega), extractModMask_eq,
    extractBasicKey_eq]
  refine ⟨initialWrapperMode_modMask (by omega) (by omega), by omega, by omega⟩

/-- Witness for C3 at mask 2, key 4 (LSFT(KC_A) = 0x0204). -/
theorem modMask_roundTrip_witness :
    initialWrapperMode false (buildModMaskKeycode 2 4) = WrapperMode.modMask ∧
    extractModMask (buildModMaskKeycode 2 4) = 2 ∧
    extractBasicKey (buildModMaskKeycode 2 4) = 4 :=
  modMask_roundTrip 2 (by decide) (by decide) 4 (by decide)

/-- C4: a zero modifier mask degenerates both wrappers to the plain basic
key: for every key in 0..=255, `buildModMaskKeycode 0 key = key` and
`buildModTapKeycode 0 key = key`. -/
theorem zero_mask_degeneration (key : Nat) (hk : key ≤ 255) :
    buildModMaskKeycode 0 key = key ∧ buildModTapKeycode 0 key = key := by
  have h : key &&& 255 = key := by rw [land_255]; omega
  constructor <;> simp [buildModMaskKeycode, buildModTapKeycode, h]

/-- Witness for C4 at key 4. -/
theorem zero_mask_degeneration_witness :
    buildModMaskKeycode 0 4 = 4 ∧ buildModTapKeycode 0 4 = 4 :=
  zero_mask_degeneration 4 (by decide)

/-- C5: leaving LayerMod mode never leaks the modifier-mask bits into the
freshly built keycode — the rebuilt value always uses basic key 0: from any
LM keycode, switching to LT emits `buildLTKeycode selectedLayer 0`, to SH_T
emits `buildSHTKeycode 0 = 0x5600`, to modTap or modMask emits 0, and
toggling LM off emits 0. -/
theorem lm_switch_no_leak (code layer : Nat) (h : isLMKeycode code = true) :
    handleModeSwitch WrapperMode.lm code layer WrapperMode.lt
      = some (buildLTKeycode layer 0) ∧
    handleModeSwitch WrapperMode.lm code layer WrapperMode.shT
      = some (buildSHTKeycode 0) ∧
    buildSHTKeycode 0 = 0x5600 ∧
    handleModeSwitch WrapperMode.lm code layer WrapperMode.modTap = some 0 ∧
    handleModeSwitch WrapperMode.lm code layer WrapperMode.modMask = some 0 ∧
    handleModeSwitch WrapperMode.lm code layer WrapperMode.lm = some 0 := by
  have hc : 0x7000 ≤ code := by
    simp only [isLMKeycode, Bool.and_eq_true, decide_eq_true_eq] at h
    omega
  have h0 : (0 : Nat) ≠ code := by omega
  refine ⟨by simp [handleModeSwitch], by simp [handleModeSwitch], by decide,
    by simp [handleModeSwitch]; decide, by simp [handleModeSwitch]; decide,
    by simp [handleModeSwitch, h0]⟩

/-- Witness for C5 at the LM keycode 0x7002 and selected layer 3. -/
theorem lm_switch_no_leak_witness :
    handleModeSwitch WrapperMode.lm 0x7002 3 WrapperMode.lt
      = some (buildLTKeycode 3 0) ∧
    handleModeSwitch WrapperMode.lm 0x7002 3 WrapperMode.shT
      = some (buildSHTKeycode 0) ∧
    buildSHTKeycode 0 = 0x5600 ∧
    handleModeSwitch WrapperMode.lm 0x7002 3 WrapperMode.modTap = some 0 ∧
    handleModeSwitch WrapperMode.lm 0x7002 3 WrapperMode.modMask = some 0 ∧
    handleModeSwitch WrapperMode.lm 0x7002 3 WrapperMode.lm = some 0 :=
  lm_switch_no_leak 0x7002 3 (by decide)

/-- C6: in masked inner-byte editing, raw code 0x5104 reports inner byte
0x04, and replacing the inner byte with 0x2C while preserving the outer tag
bits yields exactly 0x512C. -/
theorem maskOnly_inner_byte :
    extractBasicKey 0x5104 = 0x04 ∧ replaceInnerByte 0x5104 0x2c = 0x512c := by
  decide

/-- C7: resolution is total and falls back to the no-operation sentinel 0:
every name outside the known id/alias set resolves to 0, both through
`resolve` and through its catalog-id-only variant `deserialize`. -/
theorem resolve_total_fallback :
    (∀ name : String,
      name ∉ ["QMK_LM_MASK", "QK_LAYER_TAP", "SH_T(kc)", "KC_A", "KC_B", "KC_SPACE",
        "KC_ENTER", "MOD_LSFT", "MOD_LCTL"] → resolve name = 0) ∧
    (∀ name : String, name ∉ ["KC_A", "KC_B", "KC_SPACE"] → deserialize name = 0) := by
  constructor
  · intro name h
    simp only [List.mem_cons, List.not_mem_nil, or_false, not_or] at h
    obtain ⟨h1, h2, h3, h4, h5, h6, h7, h8, h9⟩ := h
    simp [resolve, h1, h2, h3, h4, h5, h6, h7, h8, h9]
  · intro name h
    simp only [List.mem_cons, List.not_mem_nil, or_false, not_or] at h
    obtain ⟨h1, h2, h3⟩ := h
    simp [deserialize, h1, h2, h3]

/-- Witness for C7 at the unknown name `KC_UNKNOWN`. -/
theorem resolve_total_fallback_witness :
    resolve "KC_UNKNOWN" = 0 ∧ deserialize "KC_UNKNOWN" = 0 :=
  ⟨resolve_total_fallback.1 "KC_UNKNOWN" (by decide),
    resolve_total_fallback.2 "KC_UNKNOWN" (by decide)⟩

/-- C8: `buildLMKeycode 0 0 = 0x7000`, a valid LayerMod value (it classifies
as LayerMod) serialized as the literal string "LM0(0x0)";
`buildLMKeycode 0 2 = 0x7002`, serialized as "LM0(MOD_LSFT)"; and
`extractLMMod 0x7002 = 2`. -/
theorem lm_build_serialize :
    buildLMKeycode 0 0 = 0x7000 ∧
    initialWrapperMode false (buildLMKeycode 0 0) = WrapperMode.lm ∧
    serialize 0x7000 = "LM0(0x0)" ∧
    buildLMKeycode 0 2 = 0x7002 ∧
    serialize 0x7002 = "LM0(MOD_LSFT)" ∧
    extractLMMod 0x7002 = 2 := by
  refine ⟨by decide, by decide, ?_, by decide, ?_, by decide⟩ <;> rfl

/-- C9: for any incoming modMask and any modifier-button toggle (bits 0..3,
either side), the mask passed to `onChange` lies in 0..=0x1F and has its
right-hand flag (bit 4) set only when at least one modifier bit (bits 0..3)
is set; in particular the strip never emits 0x10. -/
theorem strip_mask_invariant (modMask bit : Nat) (hb : bit ≤ 3) (right : Bool) :
    toggle modMask bit right ≤ 0x1f ∧
    (toggle modMask bit right &&& 0x10 ≠ 0 → toggle modMask bit right &&& 0x0f ≠ 0) ∧
    toggle modMask bit right ≠ 0x10 := by
  simp only [toggle, RIGHT_BIT, MOD_BITS_MASK, FULL_MASK, NOT_RIGHT_BIT]
  rw [show (1 <<< 4 : Nat) = 16 from rfl]
  set t := modMask ^^^ (1 <<< bit) with ht
  split_ifs with hcond
  · have hmods : t &&& 15 ≠ 0 := by
      simp only [Bool.and_eq_true, decide_eq_true_eq] at hcond
      exact hcond.2
    have hand15 : ((t ||| 16) &&& 31) &&& 15 = t &&& 15 := by
      rw [Nat.and_assoc, show (31 : Nat) &&& 15 = 15 from by decide]
      apply Nat.eq_of_testBit_eq
      intro i
      simp only [Nat.testBit_and, Nat.testBit_or]
      by_cases hi : i < 4
      · have h16 : (16 : Nat).testBit i = false := by
          rw [show (16 : Nat) = 2 ^ 4 from by norm_num, Nat.testBit_two_pow]
          simp
          omega
        simp [h16]
      · have h15 : (15 : Nat).testBit i = false := by
          rw [show (15 : Nat) = 2 ^ 4 - 1 from by norm_num, Nat.testBit_two_pow_sub_one]
          simpa using hi
        simp [h15]
    refine ⟨by rw [land_31]; omega, fun _ => by rw [hand15]; exact hmods, ?_⟩
    intro heq
    rw [heq] at hand15
    exact hmods (by simpa using hand15.symm)
  · have hand16 : ((t &&& 0xffffffef) &&& 31) &&& 16 = 0 := by
      rw [Nat.and_assoc, Nat.and_assoc,
        show (0xffffffef : Nat) &&& (31 &&& 16) = 0 from by decide, Nat.and_zero]
    refine ⟨by rw [land_31]; omega, fun h16 => absurd hand16 h16, ?_⟩
    intro heq
    rw [heq] at hand16
    exact absurd hand16 (by decide)

/-- Witness for C9: toggling bit 1 (Shift) on the right side from mask 0. -/
theorem strip_mask_invariant_witness :
    toggle 0 1 true ≤ 0x1f ∧
    (toggle 0 1 true &&& 0x10 ≠ 0 → toggle 0 1 true &&& 0x0f ≠ 0) ∧
    toggle 0 1 true ≠ 0x10 :=
  strip_mask_invariant 0 1 (by decide) true

/-! ## Page-structure lemmas for the PDF exporter -/

theorem modifyCurrent_cons (f : PdfPage → PdfPage) (a b : PdfPage) (xs : List PdfPage) :
    modifyCurrent f (a :: b :: xs) = a :: modifyCurrent f (b :: xs) := rfl

theorem modifyCurrent_append (f : PdfPage → PdfPage) :
    ∀ (l : List PdfPage) (p : PdfPage), modifyCurrent f (l ++ [p]) = l ++ [f p] := by
  intro l
  induction l with
  | nil => intro p; rfl
  | cons a l ih =>
    intro p
    cases l with
    | nil => rfl
    | cons b l2 =>
      simp only [List.cons_append]
      rw [modifyCurrent_cons]
      simp only [List.cons_append] at ih
      rw [ih]

theorem onCurrent_snoc (f : PdfPage → PdfPage) (fmt : PdfFormat) (l : List PdfPage)
    (p : PdfPage) : onCurrent f ⟨fmt, l ++ [p]⟩ = ⟨fmt, l ++ [f p]⟩ := by
  simp only [onCurrent, modifyCurrent_append]

theorem foldl_onCurrent_shape {α : Type} (g : PdfPage → PdfPage) :
    ∀ (ks : List α) (fmt : PdfFormat) (l : List PdfPage) (p : PdfPage),
    ks.foldl (fun d _ => onCurrent g d) ⟨fmt, l ++ [p]⟩ = ⟨fmt, l ++ [g^[ks.length] p]⟩ := by
  intro ks
  induction ks with
  | nil => intro fmt l p; simp
  | cons k ks ih =>
    intro fmt l p
    simp only [List.foldl_cons, onCurrent_snoc, ih, List.length_cons,
      Function.iterate_succ_apply]

theorem iterate_keysDrawn_pres (n : Nat) (p : PdfPage) :
    (((fun p => { p with keysDrawn := p.keysDrawn + 1 }) : PdfPage → PdfPage)^[n] p).headerLayer
        = p.headerLayer ∧
    (((fun p => { p with keysDrawn := p.keysDrawn + 1 }) : PdfPage → PdfPage)^[n] p).footer
        = p.footer := by
  induction n generalizing p with
  | zero => simp
  | succ n ih =>
    rw [Function.iterate_succ_apply]
    exact ih _

theorem iterate_encodersDrawn_pres (n : Nat) (p : PdfPage) :
    (((fun p => { p with encodersDrawn := p.encodersDrawn + 1 }) :
        PdfPage → PdfPage)^[n] p).headerLayer = p.headerLayer ∧
    (((fun p => { p with encodersDrawn := p.encodersDrawn + 1 }) :
        PdfPage → PdfPage)^[n] p).footer = p.footer := by
  induction n generalizing p with
  | zero => simp
  | succ n ih =>
    rw [Function.iterate_succ_apply]
    exact ih _

/-- One loop iteration on a document whose pages are `l ++ [p]`: for a
positive layer index it appends exactly one page, headed with that layer. -/
theorem layerStep_shape_pos (nk ek : List KleKey) (fmt : PdfFormat) (l : List PdfPage)
    (p : PdfPage) (layer : Nat) (hl : 0 < layer) :
    ∃ q : PdfPage, q.headerLayer = some layer ∧
      layerStep nk ek ⟨fmt, l ++ [p]⟩ layer = ⟨fmt, (l ++ [p]) ++ [q]⟩ := by
  simp only [layerStep]
  rw [if_pos hl]
  simp only [addPage]
  rw [onCurrent_snoc, onCurrent_snoc, foldl_onCurrent_shape, foldl_onCurrent_shape]
  refine ⟨_, ?_, rfl⟩
  rw [(iterate_encodersDrawn_pres _ _).1, (iterate_keysDrawn_pres _ _).1]

/-- The first loop iteration (layer 0) rewrites the current page in place,
heading it with layer 0. -/
theorem layerStep_shape_zero (nk ek : List KleKey) (fmt : PdfFormat) (l : List PdfPage)
    (p : PdfPage) :
    ∃ q : PdfPage, q.headerLayer = some 0 ∧
      layerStep nk ek ⟨fmt, l ++ [p]⟩ 0 = ⟨fmt, l ++ [q]⟩ := by
  simp only [layerStep]
  rw [if_neg (by omega : ¬ (0 : Nat) > 0)]
  rw [onCurrent_snoc, onCurrent_snoc, foldl_onCurrent_shape, foldl_onCurrent_shape]
  refine ⟨_, ?_, rfl⟩
  rw [(iterate_encodersDrawn_pres _ _).1, (iterate_keysDrawn_pres _ _).1]

/-- Invariant of the per-layer page loop: after `n ≥ 1` iterations the
document holds exactly `n` pages and page `i` is headed with layer `i`. -/
theorem pdf_loop_invariant (nk ek : List KleKey) (fmt : PdfFormat) :
    ∀ n : Nat, 0 < n →
    ∃ pages : List PdfPage,
      (List.range n).foldl (layerStep nk ek) (newPdfDoc fmt) = ⟨fmt, pages⟩ ∧
      pages.length = n ∧
      ∀ i : Nat, ∀ h : i < pages.length, pages[i].headerLayer = some i := by
  intro n
  induction n with
  | zero => omega
  | succ n ih =>
    intro _
    by_cases hn : n = 0
    · subst hn
      obtain ⟨q, hq, hstep⟩ := layerStep_shape_zero nk ek fmt [] emptyPage
      refine ⟨[q], ?_, by simp, ?_⟩
      · simpa [newPdfDoc] using hstep
      · intro i h
        simp only [List.length_singleton] at h
        interval_cases i
        simpa using hq
    · obtain ⟨pages, hfold, hlen, hget⟩ := ih (by omega)
      have hne : pages ≠ [] := by
        intro e
        rw [e] at hlen
        simp at hlen
        omega
      obtain ⟨q, hq, hstep⟩ :=
        layerStep_shape_pos nk ek fmt pages.dropLast (pages.getLast hne) n (by omega)
      rw [List.dropLast_append_getLast hne] at hstep
      refine ⟨pages ++ [q], ?_, by simp [hlen], ?_⟩
      · rw [List.range_succ, List.foldl_append, hfold]
        simpa using hstep
      · intro i h
        simp only [List.length_append, List.length_singleton, hlen] at h
        by_cases hi : i < n
        · rw [List.getElem_append_left (by omega)]
          exact hget i (by omega)
        · have hieq : i = pages.length := by omega
          rw [List.getElem_concat_length _ _ _ hieq]
          have hin : i = n := by omega
          rw [hin]
          exact hq

/-- C10: for an export input with at least one layer (and a non-degenerate
visible-keys bounding box), `generateKeymapPdf` produces exactly
`input.layers` pages, page `i` headed with layer `i` and every page carrying
the footer; when the bounding box has zero width or zero height it instead
returns a single empty landscape-A4 page regardless of the layer count. -/
theorem pdf_page_structure
    (filterVisibleKeys : List KleKey → List (Nat × Nat) → List KleKey)
    (timestamp : String) (input : PdfExportInput) :
    ((computeBounds (filterVisibleKeys input.keys input.layoutOptions)).width = 0 ∨
        (computeBounds (filterVisibleKeys input.keys input.layoutOptions)).height = 0 →
      generateKeymapPdf filterVisibleKeys timestamp input = newPdfDoc PdfFormat.a4Landscape ∧
      (newPdfDoc PdfFormat.a4Landscape).pages = [emptyPage]) ∧
    (¬((computeBounds (filterVisibleKeys input.keys input.layoutOptions)).width = 0 ∨
        (computeBounds (filterVisibleKeys input.keys input.layoutOptions)).height = 0) →
      1 ≤ input.layers →
      (generateKeymapPdf filterVisibleKeys timestamp input).pages.length = input.layers ∧
      (∀ i : Nat, ∀ h : i < (generateKeymapPdf filterVisibleKeys timestamp input).pages.length,
        ((generateKeymapPdf filterVisibleKeys timestamp input).pages[i]).headerLayer = some i) ∧
      (∀ p, p ∈ (generateKeymapPdf filterVisibleKeys timestamp input).pages →
        p.footer.isSome = true)) := by
  constructor
  · intro h
    refine ⟨?_, rfl⟩
    simp only [generateKeymapPdf]
    rw [if_pos h]
  · intro h hl
    obtain ⟨pages, hfold, hlen, hget⟩ :=
      pdf_loop_invariant
        ((filterVisibleKeys input.keys input.layoutOptions).filter fun k => k.encoderIdx == -1)
        ((filterVisibleKeys input.keys input.layoutOptions).filter fun k => k.encoderIdx != -1)
        (PdfFormat.customLandscape PAGE_WIDTH
          (MARGIN + LAYER_HEADER_HEIGHT +
            ((computeBounds (filterVisibleKeys input.keys input.layoutOptions)).height *
                min (USABLE_WIDTH /
                    (computeBounds (filterVisibleKeys input.keys input.layoutOptions)).width)
                  ((PAGE_WIDTH - MARGIN * 2 - LAYER_HEADER_HEIGHT - FOOTER_HEIGHT -
                      BORDER_PAD * 2) /
                    (computeBounds (filterVisibleKeys input.keys input.layoutOptions)).height) -
              min (USABLE_WIDTH /
                    (computeBounds (filterVisibleKeys input.keys input.layoutOptions)).width)
                  ((PAGE_WIDTH - MARGIN * 2 - LAYER_HEADER_HEIGHT - FOOTER_HEIGHT -
                      BORDER_PAD * 2) /
                    (computeBounds (filterVisibleKeys input.keys input.layoutOptions)).height) *
                SPACING_RATIO + BORDER_PAD * 2) + FOOTER_HEIGHT + MARGIN))
        input.layers (by omega)
    simp only [generateKeymapPdf]
    simp only [if_neg h, hfold]
    refine ⟨by simp [hlen], ?_, ?_⟩
    · intro i hi
      rw [List.getElem_map]
      exact hget i (by simp at hi; omega)
    · intro p hp
      simp only [List.mem_map] at hp
      obtain ⟨q, _, hq⟩ := hp
      rw [← hq]
      rfl

/-- Witness for C10: the identity filter with a two-layer input holding one
1u key yields two pages; the no-keys input yields the single empty A4 page
despite its three layers. -/
theorem pdf_page_structure_witness :
    (generateKeymapPdf (fun ks _ => ks) "2026-01-01 00:00" witnessInputNoKeys
        = newPdfDoc PdfFormat.a4Landscape ∧
      (newPdfDoc PdfFormat.a4Landscape).pages = [emptyPage]) ∧
    (generateKeymapPdf (fun ks _ => ks) "2026-01-01 00:00" witnessInputTwoLayers).pages.length
      = 2 :=
  ⟨(pdf_page_structure (fun ks _ => ks) "2026-01-01 00:00" witnessInputNoKeys).1
      (Or.inl rfl),
    ((pdf_page_structure (fun ks _ => ks) "2026-01-01 00:00" witnessInputTwoLayers).2
      (by
        intro hor
        rcases hor with hz | hz <;>
          norm_num [computeBounds, witnessInputTwoLayers, witnessKey] at hz)
      (by decide)).1⟩

end Pipette
